import Mathlib

/-!
Verification of the host-call boundary layer (`crates/env/src/backend.rs`).

The file embeds the concrete code of the source (the `ReturnFlags` bit-set
and its fluent mutator) directly, and models the behaviour that the source
only declares as trait contracts (`EnvBackend` / `TypedEnvBackend`) from the
specification, since no implementation of those traits is part of the
source tree.  Machine integers (`u32`) are embedded as `Nat`; the bitwise
operations used by the source (`|=`, `&=`) cannot overflow, so no explicit
truncation is needed.
-/

/-- Embedding of `ReturnFlags` (backend.rs line 36): a `u32` bit-set attached
to contract termination. -/
structure ReturnFlags where
  value : Nat
deriving DecidableEq, Repr

/-- Embedding of `impl Default for ReturnFlags` (backend.rs line 40):
`Self { value: 0 }`. -/
def ReturnFlags.default : ReturnFlags := { value := 0 }

/-- Rust `b as u32` for a `bool` b. -/
def boolAsU32 (b : Bool) : Nat := if b then 1 else 0

/-- Embedding of `ReturnFlags::set_reverted` (backend.rs lines 48-54):

```rust
match has_reverted {
    true => self.value |= has_reverted as u32,
    false => self.value &= !has_reverted as u32,
}
```

Note that in Rust unary `!` binds tighter than `as`, so the second arm is
`self.value &= ((!has_reverted) as u32)`, i.e. `self.value &= 1` (because in
that arm `has_reverted` is `false`). -/
def ReturnFlags.set_reverted (f : ReturnFlags) (has_reverted : Bool) : ReturnFlags :=
  match has_reverted with
  | true => { value := f.value ||| boolAsU32 has_reverted }
  | false => { value := f.value &&& boolAsU32 (not has_reverted) }

/-- Embedding of `ReturnFlags::into_u32` (backend.rs lines 58-60). -/
def ReturnFlags.into_u32 (f : ReturnFlags) : Nat := f.value

/-- The reverted bit (bit 0) of a flags value, as the host reads it. -/
def ReturnFlags.revertedBit (f : ReturnFlags) : Bool := f.value.testBit 0

/-- Claim C1: the claim states that `set_reverted false` clears the reverted
bit and leaves every other bit unchanged.  Evaluating the embedded code at
concrete inputs refutes this: on flags with value 1 (reverted bit set),
`set_reverted false` leaves the reverted bit set, and on flags with value 2
(a host-defined flag bit), `set_reverted false` erases that other bit.  The
true case behaves as claimed (value 2 becomes 3). -/
theorem set_reverted_false_violates_claim :
    (ReturnFlags.set_reverted { value := 1 } false).value = 1 ∧
    (ReturnFlags.set_reverted { value := 2 } false).value = 0 ∧
    (ReturnFlags.set_reverted { value := 2 } true).value = 3 := by
  decide

/-- Claim C8: `set_reverted` is idempotent: applying it twice with the same
boolean yields the same flags as applying it once, for every flags value and
every boolean. -/
theorem set_reverted_idempotent (f : ReturnFlags) (b : Bool) :
    (f.set_reverted b).set_reverted b = f.set_reverted b := by
  cases f with
  | mk v =>
    cases b <;>
      simp only [ReturnFlags.set_reverted, boolAsU32, Bool.not_false, if_true,
        ReturnFlags.mk.injEq] <;>
      apply Nat.eq_of_testBit_eq <;>
      intro i <;>
      simp [Nat.testBit_or, Nat.testBit_and]

/-- Claim C9: the default flags have the `u32` representation 0, and setting
the reverted bit on the default flags yields exactly 1. -/
theorem default_flags_into_u32 :
    ReturnFlags.default.into_u32 = 0 ∧
    (ReturnFlags.default.set_reverted true).into_u32 = 1 := by
  decide

/-- A storage key: a fixed-size opaque byte identifier (backend.rs uses
`ink_primitives::Key`, a 32-byte array); bytes are embedded as `Nat`. -/
abbrev StorageKey := List Nat

/-- Possible boundary errors of the environment layer. -/
inductive EnvError where
  | decodeFailed
  | calleeReverted
deriving DecidableEq, Repr

/-- Modelled from the spec: contract-scoped persistent storage backing the
`EnvBackend` storage operations, whose implementation is not part of the
source tree (backend.rs only declares the trait).  Storage is an association
list from keys to raw SCALE-encoded byte values; the most recent binding of
a key is the visible one. -/
structure Storage where
  entries : List (StorageKey × List Nat)
deriving DecidableEq, Repr

/-- Modelled from the spec: `set_contract_storage` writes the encoded value
under the key, replacing any earlier binding; it has no error result. -/
def Storage.set_contract_storage (s : Storage) (k : StorageKey) (v : List Nat) : Storage :=
  { entries := (k, v) :: s.entries.filter (fun e => e.1 != k) }

/-- Modelled from the spec: the raw bytes the host holds under a key, if any. -/
def Storage.getRaw (s : Storage) (k : StorageKey) : Option (List Nat) :=
  match s.entries.find? (fun e => e.1 == k) with
  | some e => some e.2
  | none => none

/-- Modelled from the spec: `clear_contract_storage` removes the key's entry;
it has no error result and is a no-op when the key holds no value. -/
def Storage.clear_contract_storage (s : Storage) (k : StorageKey) : Storage :=
  { entries := s.entries.filter (fun e => e.1 != k) }

/-- Modelled from the spec: `get_contract_storage` returns an explicit
"absent" result when the key holds no value, a decode error when the stored
bytes cannot be parsed as the requested type, and the decoded value
otherwise.  The requested type's decoder is passed explicitly (the Rust
code is generic over `R: scale::Decode`). -/
def get_contract_storage {R : Type} (dec : List Nat → Option R)
    (s : Storage) (k : StorageKey) : Except EnvError (Option R) :=
  match s.getRaw k with
  | none => Except.ok none
  | some bytes =>
    match dec bytes with
    | some v => Except.ok (some v)
    | none => Except.error EnvError.decodeFailed

/-- SCALE encoding of a `u32`: four bytes, little endian. -/
def encodeU32 (v : Nat) : List Nat :=
  [v % 256, v / 256 % 256, v / 65536 % 256, v / 16777216 % 256]

/-- SCALE decoding of a `u32`: reads four bytes, little endian. -/
def decodeU32 : List Nat → Option Nat
  | b0 :: b1 :: b2 :: b3 :: _ =>
    some (b0 + 256 * b1 + 65536 * b2 + 16777216 * b3)
  | _ => none

/-- SCALE decoding of a `u64`: reads eight bytes (a type requiring more
bytes than a stored `u32` provides). -/
def decodeU64 : List Nat → Option Nat
  | b0 :: b1 :: b2 :: b3 :: b4 :: b5 :: b6 :: b7 :: _ =>
    some (b0 + 256 * b1 + 65536 * b2 + 16777216 * b3 +
      4294967296 * (b4 + 256 * b5 + 65536 * b6 + 16777216 * b7))
  | _ => none

/-- After filtering out every entry with key `k`, no entry with key `k` is
found. -/
theorem find_filter_ne (l : List (StorageKey × List Nat)) (k : StorageKey) :
    (l.filter (fun e => e.1 != k)).find? (fun e => e.1 == k) = none := by
  apply List.find?_eq_none.mpr
  intro e he
  have hne := List.of_mem_filter he
  simp only [bne_iff_ne, ne_eq] at hne
  simp [hne]

/-- Reading raw bytes right after writing them yields them back. -/
theorem getRaw_set (s : Storage) (k : StorageKey) (v : List Nat) :
    (s.set_contract_storage k v).getRaw k = some v := by
  simp [Storage.set_contract_storage, Storage.getRaw, List.find?]

/-- Reading raw bytes right after clearing the key yields nothing. -/
theorem getRaw_clear (s : Storage) (k : StorageKey) :
    (s.clear_contract_storage k).getRaw k = none := by
  unfold Storage.clear_contract_storage Storage.getRaw
  rw [find_filter_ne]

/-- Claim C3: for every key and every encodable value (any value whose
decoder inverts its encoder, the contract of the SCALE serialization
collaborator), writing then reading at the same type yields the value, and
clearing then reading yields the explicit absent result. -/
theorem set_get_clear_roundtrip {R : Type} (enc : R → List Nat)
    (dec : List Nat → Option R) (s : Storage) (k : StorageKey) (v : R)
    (hcodec : dec (enc v) = some v) :
    get_contract_storage dec (s.set_contract_storage k (enc v)) k =
      Except.ok (some v) ∧
    get_contract_storage dec (s.clear_contract_storage k) k =
      Except.ok none := by
  constructor
  · simp [get_contract_storage, getRaw_set, hcodec]
  · simp [get_contract_storage, getRaw_clear]

/-- Witness for claim C3 at the spec scenario: key `[0u8; 32]`, value
`42u32`, on the empty storage. -/
theorem set_get_clear_roundtrip_witness :
    get_contract_storage decodeU32
      (Storage.set_contract_storage { entries := [] }
        (List.replicate 32 0) (encodeU32 42)) (List.replicate 32 0) =
      Except.ok (some 42) ∧
    get_contract_storage decodeU32
      (Storage.clear_contract_storage { entries := [] }
        (List.replicate 32 0)) (List.replicate 32 0) =
      Except.ok none :=
  set_get_clear_roundtrip encodeU32 decodeU32 { entries := [] }
    (List.replicate 32 0) 42 (by decide)

/-- Claim C4: `get_contract_storage` returns an explicit absent result (not
an error) for every key holding no value, a decode error whenever the
stored bytes cannot be parsed as the requested type, and the decoded value
when they can. -/
theorem get_contract_storage_trichotomy {R : Type} (dec : List Nat → Option R)
    (s : Storage) (k : StorageKey) :
    (s.getRaw k = none → get_contract_storage dec s k = Except.ok none) ∧
    (∀ bytes, s.getRaw k = some bytes → dec bytes = none →
      get_contract_storage dec s k = Except.error EnvError.decodeFailed) ∧
    (∀ bytes v, s.getRaw k = some bytes → dec bytes = some v →
      get_contract_storage dec s k = Except.ok (some v)) := by
  refine ⟨?_, ?_, ?_⟩
  · intro h
    simp [get_contract_storage, h]
  · intro bytes h hdec
    simp [get_contract_storage, h, hdec]
  · intro bytes v h hdec
    simp [get_contract_storage, h, hdec]

/-- Witness for claim C4 at the spec scenario: after storing `42u32` under
key `[0u8; 32]`, reading it as `u32` yields `Ok(Some(42))`, reading a never
written key yields `Ok(None)`, and reading it as `u64` (which needs more
bytes) yields the decode error. -/
theorem get_contract_storage_trichotomy_witness :
    get_contract_storage decodeU32
      (Storage.set_contract_storage { entries := [] }
        (List.replicate 32 0) (encodeU32 42)) (List.replicate 32 0) =
      Except.ok (some 42) ∧
    get_contract_storage decodeU32 { entries := [] } (List.replicate 32 0) =
      Except.ok none ∧
    get_contract_storage decodeU64
      (Storage.set_contract_storage { entries := [] }
        (List.replicate 32 0) (encodeU32 42)) (List.replicate 32 0) =
      Except.error EnvError.decodeFailed :=
  ⟨(get_contract_storage_trichotomy decodeU32
      (Storage.set_contract_storage { entries := [] }
        (List.replicate 32 0) (encodeU32 42)) (List.replicate 32 0)).2.2
      (encodeU32 42) 42 (by decide) (by decide),
   (get_contract_storage_trichotomy decodeU32 { entries := [] }
      (List.replicate 32 0)).1 (by decide),
   (get_contract_storage_trichotomy decodeU64
      (Storage.set_contract_storage { entries := [] }
        (List.replicate 32 0) (encodeU32 42)) (List.replicate 32 0)).2.1
      (encodeU32 42) (by decide) (by decide)⟩

/-- Claim C10: the storage mutators are infallible at the public interface:
`set_contract_storage` and `clear_contract_storage` are total functions into
`Storage` (no error result in their type, matching the `()`-returning trait
signatures), and clearing a key that was never written leaves the storage
unchanged rather than failing. -/
theorem clear_contract_storage_unwritten_noop (s : Storage) (k : StorageKey)
    (h : ∀ e ∈ s.entries, e.1 ≠ k) :
    s.clear_contract_storage k = s := by
  unfold Storage.clear_contract_storage
  cases s with
  | mk entries =>
    simp only [Storage.mk.injEq]
    apply List.filter_eq_self.mpr
    intro e he
    simp only [bne_iff_ne, ne_eq]
    exact h e he

/-- Witness for claim C10: clearing the all-zero key on a storage that only
ever bound a different key is a no-op. -/
theorem clear_contract_storage_unwritten_noop_witness :
    Storage.clear_contract_storage
      { entries := [([1, 2], [7])] } (List.replicate 32 0) =
      { entries := [([1, 2], [7])] } :=
  clear_contract_storage_unwritten_noop { entries := [([1, 2], [7])] }
    (List.replicate 32 0) (by decide)

/-- Modelled from the spec: a storage mutation performed during a contract
execution. -/
inductive StorageOp where
  | setOp (k : StorageKey) (v : List Nat)
  | clearOp (k : StorageKey)
deriving DecidableEq, Repr

/-- Apply one storage mutation. -/
def applyStorageOp (s : Storage) : StorageOp → Storage
  | StorageOp.setOp k v => s.set_contract_storage k v
  | StorageOp.clearOp k => s.clear_contract_storage k

/-- Apply a whole execution's storage mutations in order. -/
def applyStorageOps (s : Storage) (ops : List StorageOp) : Storage :=
  ops.foldl applyStorageOp s

/-- Modelled from the spec: an execution that ends via `return_value`: the
host applies the execution's storage mutations, and the reverted bit of the
returned flags instructs it to roll all of them back before propagating the
return value.  The storage visible to subsequent executions is the result. -/
def hostFinishExecution (pre : Storage) (ops : List StorageOp)
    (flags : ReturnFlags) : Storage :=
  if flags.revertedBit then pre else applyStorageOps pre ops

/-- Claim C2: the claim states that ending via `return_value` with flags on
which `set_reverted(false)` was applied preserves the execution's storage
mutations.  Evaluating the model at a concrete input refutes this: starting
from flags on which `set_reverted(true)` was applied earlier, applying
`set_reverted(false)` leaves the reverted bit set (the claim C1 slip), so
the host still rolls the mutations back: the written key reads back as
absent, although applying the mutation would have made it read `Some 42`.
The `set_reverted(true)` direction behaves as claimed (first conjunct). -/
theorem return_value_reverted_flag_evaluation :
    hostFinishExecution { entries := [] }
      [StorageOp.setOp (List.replicate 32 0) (encodeU32 42)]
      (ReturnFlags.default.set_reverted true) = { entries := [] } ∧
    hostFinishExecution { entries := [] }
      [StorageOp.setOp (List.replicate 32 0) (encodeU32 42)]
      ((ReturnFlags.default.set_reverted true).set_reverted false) =
      { entries := [] } ∧
    get_contract_storage decodeU32
      (hostFinishExecution { entries := [] }
        [StorageOp.setOp (List.replicate 32 0) (encodeU32 42)]
        ((ReturnFlags.default.set_reverted true).set_reverted false))
      (List.replicate 32 0) = Except.ok none ∧
    get_contract_storage decodeU32
      (applyStorageOps { entries := [] }
        [StorageOp.setOp (List.replicate 32 0) (encodeU32 42)])
      (List.replicate 32 0) = Except.ok (some 42) :=
  ⟨rfl, rfl, rfl, rfl⟩

/-- Modelled from the spec: what the host hands back from the raw chain
extension call: an opaque numeric status code and an opaque output byte
buffer (backend.rs only declares `call_chain_extension` with its two-phase
developer note). -/
structure ChainExtResponse where
  status : Nat
  output : List Nat

/-- Modelled from the spec: the two-phase chain-extension protocol.  The raw
host call produced `resp`; phase one (`status_to_result`) maps the status
code, and on error the mapped code is converted into the caller's error
type and returned immediately; only on success does phase two
(`decode_to_result`) run, on the host's raw output buffer. -/
def call_chain_extension {T E ErrorCode : Type} (resp : ChainExtResponse)
    (status_to_result : Nat → Except ErrorCode Unit)
    (decode_to_result : List Nat → Except E T)
    (fromCode : ErrorCode → E) : Except E T :=
  match status_to_result resp.status with
  | Except.error code => Except.error (fromCode code)
  | Except.ok _ => decode_to_result resp.output

/-- Claim C5: when `status_to_result` maps the status to an error code, the
call returns that code converted into the caller's error type, and the
result does not depend on `decode_to_result` at all (it is never invoked:
the call's outcome is the same for any two decoders); when `status_to_result`
maps the status to success, the result is exactly `decode_to_result` applied
to the host's raw output buffer. -/
theorem call_chain_extension_two_phase {T E ErrorCode : Type}
    (resp : ChainExtResponse) (status_to_result : Nat → Except ErrorCode Unit)
    (fromCode : ErrorCode → E) :
    (∀ code, status_to_result resp.status = Except.error code →
      ∀ d₁ d₂ : List Nat → Except E T,
        call_chain_extension resp status_to_result d₁ fromCode =
          Except.error (fromCode code) ∧
        call_chain_extension resp status_to_result d₁ fromCode =
          call_chain_extension resp status_to_result d₂ fromCode) ∧
    (status_to_result resp.status = Except.ok () →
      ∀ d : List Nat → Except E T,
        call_chain_extension resp status_to_result d fromCode =
          d resp.output) := by
  constructor
  · intro code h d₁ d₂
    constructor <;> simp [call_chain_extension, h]
  · intro h d
    simp [call_chain_extension, h]

/-- Witness for claim C5, on a status mapper that treats 0 as success and
any other status as the error code itself: status 7 returns the mapped
error for any decoder, and status 0 runs the decoder on the raw output. -/
theorem call_chain_extension_two_phase_witness :
    call_chain_extension (T := Nat) { status := 7, output := [1, 2] }
      (fun st => if st = 0 then Except.ok () else Except.error st)
      (fun bytes => Except.ok bytes.length) (fun code => code + 100) =
      Except.error 107 ∧
    call_chain_extension (T := Nat) { status := 0, output := [1, 2] }
      (fun st => if st = 0 then Except.ok () else Except.error st)
      (fun bytes => Except.ok bytes.length) (fun code => code + 100) =
      Except.ok 2 := by
  constructor
  · exact ((call_chain_extension_two_phase { status := 7, output := [1, 2] }
      (fun st => if st = 0 then Except.ok () else Except.error st)
      (fun code => code + 100)).1 7 rfl
      (fun bytes => Except.ok bytes.length)
      (fun bytes => Except.ok bytes.length)).1
  · exact (call_chain_extension_two_phase { status := 0, output := [1, 2] }
      (fun st => if st = 0 then Except.ok () else Except.error st)
      (fun code => code + 100)).2 rfl
      (fun bytes => Except.ok bytes.length)

/-- Modelled from the spec: the operations a contract execution can issue at
the host boundary; `returnValue` and `terminateContract` are declared with
the never type (`-> !`) in backend.rs. -/
inductive ContractInstr where
  | storageSet (k : StorageKey) (v : List Nat)
  | storageClear (k : StorageKey)
  | logLine (content : String)
  | returnValue (flags : ReturnFlags) (ret : List Nat)
  | terminateContract (beneficiary : Nat)
deriving DecidableEq, Repr

/-- The two divergent operations: those that unconditionally end execution
and hand control to the host. -/
def ContractInstr.divergent : ContractInstr → Bool
  | ContractInstr.returnValue _ _ => true
  | ContractInstr.terminateContract _ => true
  | _ => false

/-- Modelled from the spec: the instructions of an execution that actually
run: execution proceeds in order and stops at the first divergent
operation, which never returns control to its caller. -/
def executedInstrs : List ContractInstr → List ContractInstr
  | [] => []
  | i :: rest =>
    if i.divergent then [i] else i :: executedInstrs rest

/-- Claim C6: `return_value` and `terminate_contract` never return control:
when an execution reaches one of them after a divergence-free program
prefix, exactly that prefix plus the divergent operation runs, whatever
instructions follow — no code after the divergent call is reachable. -/
theorem divergent_instr_stops_execution (pre : List ContractInstr)
    (i : ContractInstr) (post : List ContractInstr)
    (hpre : ∀ j ∈ pre, j.divergent = false) (hi : i.divergent = true) :
    executedInstrs (pre ++ i :: post) = pre ++ [i] := by
  induction pre with
  | nil => simp [executedInstrs, hi]
  | cons j rest ih =>
    have hj : j.divergent = false := hpre j (List.mem_cons_self j rest)
    have hrest : ∀ x ∈ rest, x.divergent = false := fun x hx =>
      hpre x (List.mem_cons_of_mem j hx)
    simp [executedInstrs, hj, ih hrest]

/-- Witness for claim C6: after a storage write, both a `return_value` and a
`terminate_contract` cut off the trailing instructions. -/
theorem divergent_instr_stops_execution_witness :
    executedInstrs [ContractInstr.storageSet [0] [42],
      ContractInstr.returnValue ReturnFlags.default [1],
      ContractInstr.logLine "unreachable"] =
      [ContractInstr.storageSet [0] [42],
        ContractInstr.returnValue ReturnFlags.default [1]] ∧
    executedInstrs [ContractInstr.storageSet [0] [42],
      ContractInstr.terminateContract 9,
      ContractInstr.storageClear [0]] =
      [ContractInstr.storageSet [0] [42],
        ContractInstr.terminateContract 9] :=
  ⟨divergent_instr_stops_execution [ContractInstr.storageSet [0] [42]]
      (ContractInstr.returnValue ReturnFlags.default [1])
      [ContractInstr.logLine "unreachable"] (by decide) rfl,
   divergent_instr_stops_execution [ContractInstr.storageSet [0] [42]]
      (ContractInstr.terminateContract 9)
      [ContractInstr.storageClear [0]] (by decide) rfl⟩

/-- Modelled from the spec: the parameters of a cross-contract call (callee
identity, transferred value, gas limit, selector plus encoded arguments),
constructed once and consumed by a single backend call. -/
structure CallParams where
  callee : Nat
  transferredValue : Nat
  gasLimit : Nat
  inputData : List Nat
deriving DecidableEq, Repr

/-- Modelled from the spec: what the host reports for a dispatched call:
either the callee's raw output bytes, or that the callee reverted. -/
inductive CalleeOutcome where
  | success (output : List Nat)
  | reverted
deriving DecidableEq, Repr

/-- A host-visible effect record: the host calls an operation triggers. -/
inductive HostCallRecord where
  | contractCall (p : CallParams)
deriving DecidableEq, Repr

/-- Modelled from the spec: `invoke_contract` dispatches the call and
discards the callee's return value; a callee revert becomes an error
result.  The first component records the host-visible effects. -/
def invoke_contract (host : CallParams → CalleeOutcome) (p : CallParams) :
    List HostCallRecord × Except EnvError Unit :=
  ([HostCallRecord.contractCall p],
    match host p with
    | CalleeOutcome.success _ => Except.ok ()
    | CalleeOutcome.reverted => Except.error EnvError.calleeReverted)

/-- Modelled from the spec: `eval_contract` dispatches the same call and
additionally decodes the callee's output into the caller-specified type; a
callee revert becomes an error result. -/
def eval_contract {R : Type} (dec : List Nat → Option R)
    (host : CallParams → CalleeOutcome) (p : CallParams) :
    List HostCallRecord × Except EnvError R :=
  ([HostCallRecord.contractCall p],
    match host p with
    | CalleeOutcome.success out =>
      match dec out with
      | some r => Except.ok r
      | none => Except.error EnvError.decodeFailed
    | CalleeOutcome.reverted => Except.error EnvError.calleeReverted)

/-- Claim C7: on the same call parameters, `invoke_contract` and
`eval_contract` trigger identical host-visible effects; a callee revert
yields an error result from both (control returns to the caller, the
functions are total); on success, `invoke_contract` discards the output
(returning unit whatever it was) while `eval_contract` decodes it. -/
theorem invoke_eval_contract_equiv {R : Type} (dec : List Nat → Option R)
    (host : CallParams → CalleeOutcome) (p : CallParams) :
    (invoke_contract host p).1 = (eval_contract dec host p).1 ∧
    (host p = CalleeOutcome.reverted →
      (invoke_contract host p).2 = Except.error EnvError.calleeReverted ∧
      (eval_contract dec host p).2 = Except.error EnvError.calleeReverted) ∧
    (∀ out, host p = CalleeOutcome.success out →
      (invoke_contract host p).2 = Except.ok () ∧
      (eval_contract dec host p).2 =
        match dec out with
        | some r => Except.ok r
        | none => Except.error EnvError.decodeFailed) := by
  refine ⟨rfl, ?_, ?_⟩
  · intro h
    constructor <;> simp [invoke_contract, eval_contract, h]
  · intro out h
    constructor <;> simp [invoke_contract, eval_contract, h]

/-- Witness for claim C7 on a concrete host: one call parameter set the host
answers with output `[42, 0, 0, 0]`, another it reverts; effects agree,
`eval` decodes `42u32`, `invoke` returns unit, and the revert surfaces as an
error from both. -/
theorem invoke_eval_contract_equiv_witness :
    (invoke_contract
      (fun p => if p.callee = 1 then CalleeOutcome.success (encodeU32 42)
        else CalleeOutcome.reverted)
      { callee := 1, transferredValue := 0, gasLimit := 0,
        inputData := [] }).1 =
    (eval_contract decodeU32
      (fun p => if p.callee = 1 then CalleeOutcome.success (encodeU32 42)
        else CalleeOutcome.reverted)
      { callee := 1, transferredValue := 0, gasLimit := 0,
        inputData := [] }).1 ∧
    (eval_contract decodeU32
      (fun p => if p.callee = 1 then CalleeOutcome.success (encodeU32 42)
        else CalleeOutcome.reverted)
      { callee := 2, transferredValue := 0, gasLimit := 0,
        inputData := [] }).2 = Except.error EnvError.calleeReverted :=
  ⟨(invoke_eval_contract_equiv decodeU32
      (fun p => if p.callee = 1 then CalleeOutcome.success (encodeU32 42)
        else CalleeOutcome.reverted)
      { callee := 1, transferredValue := 0, gasLimit := 0,
        inputData := [] }).1,
   ((invoke_eval_contract_equiv decodeU32
      (fun p => if p.callee = 1 then CalleeOutcome.success (encodeU32 42)
        else CalleeOutcome.reverted)
      { callee := 2, transferredValue := 0, gasLimit := 0,
        inputData := [] }).2.1 rfl).2⟩
